import Mathlib

/-!
Verification of the field-detection core of the pdfformcounter repository.

The development shallowly embeds the Python sources:
  advanced_field_detector.py  (class AdvancedFieldDetector)
  visual_field_detector.py    (class VisualFieldDetector)
  pdf_analyzer.py             (class PDFFormAnalyzer)

Python floats are modelled as rationals, Python dicts with a fixed key set
as structures (optional keys as Option), and the PDF-access libraries
(PyMuPDF/fitz and PyPDF2) as explicit input data: a parse outcome is either
the parsed document structure or the message of the exception the library
raised.  A function wrapped in a try/except that can only fail inside the
library call is modelled as a total function on that outcome type.
-/

namespace PdfFormCounter

/-- Result dictionary shape shared by PDFFormAnalyzer.analyze_pdf and
AdvancedFieldDetector.detect_form_fields.  Each branch of the Python code
returns a dict literal with a fixed set of keys; keys that appear in some
branches only are modelled as Option (none means the key is absent). -/
structure Envelope (α : Type) where
  success : Bool
  fields : List α
  field_count : Option Nat := none
  message : Option String := none
  error : Option String := none
deriving DecidableEq, Repr

namespace AdvancedFieldDetector

/-- A rectangle [x0, y0, x1, y1], as the 4-element rect lists of
advanced_field_detector.py. -/
structure Rect where
  x0 : ℚ
  y0 : ℚ
  x1 : ℚ
  y1 : ℚ
deriving DecidableEq, Repr

/-- A candidate field dict as built by the four detectors of
AdvancedFieldDetector (_detect_text_positioned_fields,
_detect_drawing_elements, _detect_layout_patterns,
_detect_interactive_widgets).  Every creation site sets the keys name,
type, page, rect, detection_method and confidence; the per-method extra
keys (label, pattern, dimensions, line_length, section_type, widget_info)
are modelled by the attrs association list, which the consolidation code
never reads and copies wholesale. -/
structure Field where
  name : String
  type : String
  page : Int
  rect : Rect
  detection_method : String
  confidence : ℚ
  attrs : List (String × String) := []
deriving DecidableEq, Repr

/-- self.min_field_width from AdvancedFieldDetector.__init__. -/
def min_field_width : ℚ := 20

/-- self.min_field_height from AdvancedFieldDetector.__init__. -/
def min_field_height : ℚ := 8

/-- self.checkbox_size_range from AdvancedFieldDetector.__init__. -/
def checkbox_size_range : ℚ × ℚ := (5, 25)

/-- AdvancedFieldDetector._is_form_field_rectangle (lines 363-368). -/
def is_form_field_rectangle (width height : ℚ) : Bool :=
  decide (width ≥ min_field_width ∧
          height ≥ min_field_height ∧
          height ≤ 100 ∧
          width ≤ 500)

/-- AdvancedFieldDetector._classify_rectangle_by_size (lines 370-386).
The float bounds 0.7 and 1.3 are taken at their decimal values. -/
def classify_rectangle_by_size (width height : ℚ) : String :=
  let aspect_ratio := if height > 0 then width / height else 0
  if checkbox_size_range.1 ≤ width ∧ width ≤ checkbox_size_range.2 ∧
     checkbox_size_range.1 ≤ height ∧ height ≤ checkbox_size_range.2 ∧
     7/10 ≤ aspect_ratio ∧ aspect_ratio ≤ 13/10 then
    "Checkbox"
  else if aspect_ratio > 3 then
    "Text Field"
  else
    "Text Field"

/-- Squared center-to-center distance of two rects, as computed inside
AdvancedFieldDetector._fields_should_merge (lines 485-488) before the
square root is taken. -/
def center_distance_sq (rect1 rect2 : Rect) : ℚ :=
  let center1 : ℚ × ℚ := ((rect1.x0 + rect1.x1)/2, (rect1.y0 + rect1.y1)/2)
  let center2 : ℚ × ℚ := ((rect2.x0 + rect2.x1)/2, (rect2.y0 + rect2.y1)/2)
  (center1.1 - center2.1)^2 + (center1.2 - center2.2)^2

/-- AdvancedFieldDetector._fields_should_merge (lines 479-494).  The source
compares the square root of the squared center distance with 15; over
nonnegative numbers that is equivalent to comparing the square with 225,
which keeps the definition inside ℚ. -/
def fields_should_merge (field1 field2 : Field) : Bool :=
  decide (center_distance_sq field1.rect field2.rect < 225 ∧
          field1.type = field2.type ∧
          field1.detection_method ≠ "interactive_widget" ∧
          field2.detection_method ≠ "interactive_widget")

/-- AdvancedFieldDetector._merge_fields (lines 496-517).  The source reads
the confidences with dict.get(key, 0.5); every record built by the four
detectors carries a confidence, so the default never fires and the key is
modelled as always present. -/
def merge_fields (field1 field2 : Field) : Field :=
  let rect1 := field1.rect
  let rect2 := field2.rect
  let merged_rect : Rect :=
    { x0 := min rect1.x0 rect2.x0
      y0 := min rect1.y0 rect2.y0
      x1 := max rect1.x1 rect2.x1
      y1 := max rect1.y1 rect2.y1 }
  let base_field := if field1.confidence ≥ field2.confidence then field1 else field2
  { base_field with
      rect := merged_rect
      detection_method :=
        "merged_" ++ field1.detection_method ++ "_" ++ field2.detection_method
      confidence := max field1.confidence field2.confidence }

/-- The merge guard of AdvancedFieldDetector._consolidate_fields
(lines 350-351): same page and _fields_should_merge. -/
def merge_test (field other_field : Field) : Bool :=
  field.page == other_field.page && fields_should_merge field other_field

/-- The sort key of _consolidate_fields line 332: lexicographic on
(page, rect[1], rect[0]). -/
def field_sort_le (f g : Field) : Bool :=
  decide (f.page < g.page ∨
          (f.page = g.page ∧
           (f.rect.y0 < g.rect.y0 ∨
            (f.rect.y0 = g.rect.y0 ∧ f.rect.x0 ≤ g.rect.x0))))

/-- The inner loop of _consolidate_fields (lines 341-357) for one outer
iteration: scan the later candidates in order; whenever the merge guard
accepts one, replace the running field by the merged field and drop
(skip) that candidate; return the final running field together with the
candidates that remain for later outer iterations. -/
def merge_pass (field : Field) : List Field → Field × List Field
  | [] => (field, [])
  | other_field :: rest =>
    if merge_test field other_field then
      merge_pass (merge_fields field other_field) rest
    else
      let r := merge_pass field rest
      (r.1, other_field :: r.2)

/-- The outer loop of _consolidate_fields (lines 334-359) on the already
sorted list: take the first unskipped field, run the inner merge scan over
the rest, append the resulting field, and continue with the survivors. -/
def consolidate_sorted : List Field → List Field
  | [] => []
  | field :: rest =>
    let r := merge_pass field rest
    r.1 :: consolidate_sorted r.2
termination_by l => l.length
decreasing_by
  have h : ∀ (f : Field) (l : List Field), (merge_pass f l).2.length ≤ l.length := by
    intro f l
    induction l generalizing f with
    | nil => simp [merge_pass]
    | cons g gs ih =>
      simp only [merge_pass]
      split
      · exact Nat.le_succ_of_le (ih _)
      · simpa using ih f
  simp only [List.length_cons]
  exact Nat.lt_succ_of_le (h _ _)

/-- AdvancedFieldDetector._consolidate_fields (lines 326-361): sort by
(page, y0, x0), then the greedy single-pass merge.  The early return for
an empty input returns the same empty list the general path produces. -/
def consolidate_fields (fields : List Field) : List Field :=
  consolidate_sorted (fields.mergeSort field_sort_le)

/-- Input to detect_form_fields, modelling the PyMuPDF interaction of
lines 18-27: ok carries, for each page of the opened document, the
candidate list collected by the four detectors of _analyze_page_layout
(lines 44-66) before consolidation; err is the message of an exception
raised anywhere in the try block. -/
inductive FitzOutcome where
  | ok (pageCandidates : List (List Field))
  | err (msg : String)

/-- AdvancedFieldDetector.detect_form_fields (lines 16-42) composed with
_analyze_page_layout (lines 44-71): consolidate each page's candidates,
concatenate across pages, and wrap in the result envelope; on an
exception return the failure envelope of lines 36-42. -/
def detect_form_fields : FitzOutcome → Envelope Field
  | .ok pageCandidates =>
    let all_fields := (pageCandidates.map consolidate_fields).flatten
    { success := true
      fields := all_fields
      field_count := some all_fields.length
      message := some ("Advanced detection found " ++ toString all_fields.length
        ++ " form fields") }
  | .err msg =>
    { success := false
      error := some ("Advanced detection error: " ++ msg)
      fields := []
      field_count := some 0 }

end AdvancedFieldDetector

namespace VisualFieldDetector

/-- VisualFieldDetector._is_form_field_rectangle
(visual_field_detector.py lines 251-268). -/
def is_form_field_rectangle (width height : ℚ) : Bool :=
  if width < 20 ∨ height < 8 then
    false
  else if height > 100 then
    false
  else
    let aspect_ratio := if height > 0 then width / height else 0
    decide (1/2 ≤ aspect_ratio ∧ aspect_ratio ≤ 15)

/-- VisualFieldDetector._classify_rectangle_field
(visual_field_detector.py lines 270-281). -/
def classify_rectangle_field (width height : ℚ) : String :=
  let aspect_ratio := if height > 0 then width / height else 0
  if width ≤ 25 ∧ height ≤ 25 ∧ 7/10 ≤ aspect_ratio ∧ aspect_ratio ≤ 13/10 then
    "Checkbox"
  else if aspect_ratio > 8 then
    "Text Field"
  else if 2 ≤ aspect_ratio ∧ aspect_ratio ≤ 8 then
    "Text Field"
  else
    "Text Field"

end VisualFieldDetector

namespace PDFFormAnalyzer

/-- A value stored under the /Ff key: PyPDF2 yields a Python int for a
well-formed flags entry; anything else (an indirect reference, a string)
fails the isinstance(flags, int) checks of _parse_field. -/
inductive FfVal where
  | int (n : Int)
  | nonint
deriving DecidableEq, Repr

/-- One entry of an /Opt array, as consumed by the options loop of
_parse_field (lines 193-201): either a PDF array, modelled by the list of
the str() images of its elements, or any other object, modelled by its
str() image. -/
inductive PdfOpt where
  | arr (items : List String)
  | scalar (s : String)
deriving DecidableEq, Repr

/-- A PDF dictionary as read by pdf_analyzer.py: the keys _parse_field,
_process_field_recursively and _extract_fields_alternative_method look up.
String-valued entries are modelled by the str() image the code takes of
them; absent keys by none.  Rect holds str(obj[/Rect]). -/
inductive PdfObj : Type where
  | mk (T : Option String) (FT : Option String) (Ff : Option FfVal)
       (DV : Option String) (V : Option String) (TU : Option String)
       (Opt : Option (List PdfOpt)) (Kids : List PdfObj)
       (S_ubtype : Option String) (Rect : Option String)
       (Contents : Option String)

def PdfObj.T : PdfObj → Option String
  | .mk t _ _ _ _ _ _ _ _ _ _ => t

def PdfObj.FT : PdfObj → Option String
  | .mk _ ft _ _ _ _ _ _ _ _ _ => ft

def PdfObj.Ff : PdfObj → Option FfVal
  | .mk _ _ ff _ _ _ _ _ _ _ _ => ff

def PdfObj.DV : PdfObj → Option String
  | .mk _ _ _ dv _ _ _ _ _ _ _ => dv

def PdfObj.V : PdfObj → Option String
  | .mk _ _ _ _ v _ _ _ _ _ _ => v

def PdfObj.TU : PdfObj → Option String
  | .mk _ _ _ _ _ tu _ _ _ _ _ => tu

def PdfObj.Opt : PdfObj → Option (List PdfOpt)
  | .mk _ _ _ _ _ _ o _ _ _ _ => o

def PdfObj.Kids : PdfObj → List PdfObj
  | .mk _ _ _ _ _ _ _ k _ _ _ => k

def PdfObj.S_ubtype : PdfObj → Option String
  | .mk _ _ _ _ _ _ _ _ s _ _ => s

def PdfObj.Rect : PdfObj → Option String
  | .mk _ _ _ _ _ _ _ _ _ r _ => r

def PdfObj.Contents : PdfObj → Option String
  | .mk _ _ _ _ _ _ _ _ _ _ c => c

/-- The field_info dict built by PDFFormAnalyzer._parse_field, with the
page and rect keys that only _extract_fields_alternative_method adds
(lines 239-242) as Options. -/
structure FieldInfo where
  name : String
  type : String
  required : Bool
  default_value : String
  options : List String
  description : String
  page : Option Nat := none
  rect : Option String := none
deriving DecidableEq, Repr

/-- self.field_type_mapping from PDFFormAnalyzer.__init__ together with
the .get(str(ft), str(ft)) lookup of line 160. -/
def field_type_mapping (ft : String) : String :=
  if ft = "/Tx" then "Text Field"
  else if ft = "/Btn" then "Button/Checkbox/Radio"
  else if ft = "/Ch" then "Choice/Dropdown"
  else if ft = "/Sig" then "Signature Field"
  else ft

/-- The string _parse_field appends for one /Opt entry (lines 196-200):
str(opt[0]) for a nonempty array, str(opt) otherwise; str() of the empty
Python list prints as a bracket pair. -/
def opt_entry_str : PdfOpt → String
  | .arr (x :: _) => x
  | .arr [] => "[" ++ "]"
  | .scalar s => s

/-- PDFFormAnalyzer._parse_field (lines 130-212).  The Python truthiness
tests on parent_name and field_name (None and the empty string both
falsy) become emptiness tests on the optional parent string. -/
def parse_field (field_obj : PdfObj) (parent_name : Option String) : FieldInfo :=
  let field_name0 := match field_obj.T with
    | some t => t
    | none => ""
  let p := (parent_name.getD "")
  let field_name :=
    if p ≠ "" ∧ field_name0 ≠ "" then p ++ "." ++ field_name0
    else if p ≠ "" then p
    else field_name0
  let field_type := match field_obj.FT with
    | none => "Unknown"
    | some ft =>
      if ft = "/Btn" then
        match field_obj.Ff with
        | some (.int flags) =>
          if Int.land flags 32768 ≠ 0 then "Radio Button"
          else if Int.land flags 65536 ≠ 0 then "Push Button"
          else "Checkbox"
        | _ => field_type_mapping ft
      else field_type_mapping ft
  let required := match field_obj.Ff with
    | some (.int flags) => Int.land flags 2 ≠ 0
    | _ => false
  let default_value := match field_obj.DV with
    | some dv => dv
    | none => match field_obj.V with
      | some v => v
      | none => ""
  let options := match field_obj.Opt with
    | some opt_list => opt_list.map opt_entry_str
    | none => []
  let description := match field_obj.TU with
    | some tu => tu
    | none => ""
  { name := field_name
    type := field_type
    required := required
    default_value := default_value
    options := options
    description := description }

mutual

/-- PDFFormAnalyzer._process_field_recursively (lines 99-128): parse the
field, append it when it has a nonempty name not already present, then
recurse into /Kids with the current name as parent. -/
def process_field_recursively (field_obj : PdfObj) (fields : List FieldInfo)
    (parent_name : Option String) : List FieldInfo :=
  let field_info := parse_field field_obj parent_name
  let fields1 :=
    if field_info.name ≠ "" ∧ ¬ fields.any (fun f => f.name = field_info.name) then
      fields ++ [field_info]
    else fields
  process_kids field_obj.Kids fields1 (some field_info.name)
termination_by sizeOf field_obj
decreasing_by
  cases field_obj with
  | mk t ft ff dv v tu o kids s r c => simp [PdfObj.Kids]; omega

/-- The kids loop of _process_field_recursively (lines 118-126). -/
def process_kids (kids : List PdfObj) (fields : List FieldInfo)
    (parent_name : Option String) : List FieldInfo :=
  match kids with
  | [] => fields
  | kid :: rest => process_kids rest (process_field_recursively kid fields parent_name) parent_name
termination_by sizeOf kids
decreasing_by
  all_goals simp
  all_goals omega

end

/-- A page as read by _extract_fields_alternative_method: the optional
/Annots array, each annotation being a PDF dictionary. -/
structure PdfPage where
  Annots : Option (List PdfObj)

/-- The /AcroForm dictionary: only its optional /Fields array is read
(lines 78-79). -/
structure AcroForm where
  Fields : Option (List PdfObj)

/-- A parsed document, as far as pdf_analyzer.py reads it: the optional
/AcroForm entry of the root dictionary and the page list. -/
structure PdfDoc where
  acroForm : Option AcroForm
  pages : List PdfPage

/-- Outcome of PyPDF2.PdfReader on the input bytes (analyze_pdf lines
28-36): the parsed document, or the str() of the exception the try block
caught. -/
inductive PdfParseOutcome where
  | ok (doc : PdfDoc)
  | err (msg : String)

/-- The record _extract_fields_alternative_method builds for one
annotation (lines 231-267), given the accumulated output length
(len(fields), which feeds the synthetic Annotation_ name): none when the
annotation is appended nothing. -/
def annot_field (page_num : Nat) (cur_len : Nat) (annot : PdfObj) : Option FieldInfo :=
  match annot.S_ubtype with
  | none => none
  | some subtype =>
    if subtype = "/Widget" then
      let field_info := parse_field annot none
      if field_info.name ≠ "" then
        some { field_info with page := some (page_num + 1), rect := annot.Rect }
      else none
    else if subtype = "/FreeText" ∨ subtype = "/Text" ∨ subtype = "/Square" ∨
            subtype = "/Circle" then
      let base_name := "Annotation_" ++ toString (page_num + 1) ++ "_"
        ++ toString (cur_len + 1)
      let field_name := match annot.Contents with
        | some content =>
          if content.trim ≠ "" then
            if content.length > 20 then "Text_" ++ content.take 20 ++ "..."
            else "Text_" ++ content
          else base_name
        | none => base_name
      some { name := field_name
             type := "Annotation (" ++ subtype.drop 1 ++ ")"
             page := some (page_num + 1)
             required := false
             default_value := ""
             options := []
             description := ""
             rect := annot.Rect }
    else none

/-- The annotation loop of _extract_fields_alternative_method for one
page, threading the accumulated field list (its length names the
synthetic annotation records). -/
def extract_annots (page_num : Nat) (annots : List PdfObj)
    (fields : List FieldInfo) : List FieldInfo :=
  match annots with
  | [] => fields
  | annot :: rest =>
    match annot_field page_num fields.length annot with
    | some field_info => extract_annots page_num rest (fields ++ [field_info])
    | none => extract_annots page_num rest fields

/-- The page loop of _extract_fields_alternative_method (lines 227-229). -/
def extract_pages (page_num : Nat) (pages : List PdfPage)
    (fields : List FieldInfo) : List FieldInfo :=
  match pages with
  | [] => fields
  | page :: rest =>
    let fields1 := match page.Annots with
      | some annots => extract_annots page_num annots fields
      | none => fields
    extract_pages (page_num + 1) rest fields1

/-- PDFFormAnalyzer._extract_fields_alternative_method (lines 214-274). -/
def extract_fields_alternative_method (pages : List PdfPage) : List FieldInfo :=
  extract_pages 0 pages []

/-- PDFFormAnalyzer._extract_form_fields (lines 60-97): walk the AcroForm
field tree, then append the alternative-method records whose names are not
already present (the name set is taken once, before the loop). -/
def extract_form_fields (doc : PdfDoc) : List FieldInfo :=
  let fields := match doc.acroForm with
    | some acro_form =>
      match acro_form.Fields with
      | some form_fields => process_kids form_fields [] none
      | none => []
    | none => []
  let alternative_fields := extract_fields_alternative_method doc.pages
  let existing_names := fields.map (fun f => f.name)
  fields ++ alternative_fields.filter (fun alt => ¬ existing_names.contains alt.name)

/-- PDFFormAnalyzer.analyze_pdf (lines 18-58). -/
def analyze_pdf : PdfParseOutcome → Envelope FieldInfo
  | .ok doc =>
    match doc.acroForm with
    | none =>
      { success := true
        fields := []
        message := some "No form fields found in this PDF" }
    | some _ =>
      let fields := extract_form_fields doc
      { success := true
        fields := fields
        message := some ("Found " ++ toString fields.length ++ " form fields") }
  | .err msg =>
    { success := false
      fields := []
      error := some msg }

end PDFFormAnalyzer

/-- Fixture: a native checkbox widget record as _detect_interactive_widgets
emits it, centered at (15, 15). -/
def widget_checkbox_a : AdvancedFieldDetector.Field :=
  { name := "cb1"
    type := "Checkbox"
    page := 1
    rect := { x0 := 10, y0 := 10, x1 := 20, y1 := 20 }
    detection_method := "interactive_widget"
    confidence := 1 }

/-- Fixture: a second native checkbox widget record, centered at (18, 15),
3 units from the center of widget_checkbox_a. -/
def widget_checkbox_b : AdvancedFieldDetector.Field :=
  { name := "cb2"
    type := "Checkbox"
    page := 1
    rect := { x0 := 13, y0 := 10, x1 := 23, y1 := 20 }
    detection_method := "interactive_widget"
    confidence := 1 }

/-- Fixture: a /Btn field object whose /Ff has the radio bit (32768) and
the required bit (2) set. -/
def sample_radio_obj : PDFFormAnalyzer.PdfObj :=
  .mk (some "radio1") (some "/Btn") (some (.int 32770))
    none none none none [] none none none

/-- Fixture: a /Widget annotation carrying a text field named w1. -/
def sample_widget_annot : PDFFormAnalyzer.PdfObj :=
  .mk (some "w1") (some "/Tx") none none none none none []
    (some "/Widget") (some "[0, 0, 10, 10]") none

/-- Fixture: a document without /AcroForm whose single page carries a
widget annotation. -/
def sample_no_acroform_doc : PDFFormAnalyzer.PdfDoc :=
  { acroForm := none
    pages := [{ Annots := some [sample_widget_annot] }] }

/-- Fixture: a label-based text-field record with confidence 0.7. -/
def text_field_a : AdvancedFieldDetector.Field :=
  { name := "text_field_after_name"
    type := "Text Field"
    page := 1
    rect := { x0 := 10, y0 := 10, x1 := 110, y1 := 30 }
    detection_method := "label_based_positioning"
    confidence := 7/10
    attrs := [("label", "Name:")] }

/-- Fixture: a second text-field record with the same confidence 0.7,
overlapping text_field_a. -/
def text_field_b : AdvancedFieldDetector.Field :=
  { name := "rect_field_1"
    type := "Text Field"
    page := 1
    rect := { x0 := 12, y0 := 12, x1 := 112, y1 := 32 }
    detection_method := "rectangle_analysis"
    confidence := 7/10 }

namespace AdvancedFieldDetector

theorem merge_test_widget_left {f : Field} (g : Field)
    (hf : f.detection_method = "interactive_widget") : merge_test f g = false := by
  simp [merge_test, fields_should_merge, hf]

theorem merge_test_widget_right (g : Field) {f : Field}
    (hf : f.detection_method = "interactive_widget") : merge_test g f = false := by
  simp [merge_test, fields_should_merge, hf]

theorem merge_pass_widget_head {f : Field} (l : List Field)
    (hf : f.detection_method = "interactive_widget") : merge_pass f l = (f, l) := by
  induction l with
  | nil => rfl
  | cons g gs ih =>
    simp only [merge_pass, merge_test_widget_left g hf, Bool.false_eq_true, if_false, ih]

theorem merge_pass_widget_mem {f : Field} (g : Field) {l : List Field}
    (hf : f.detection_method = "interactive_widget") (hmem : f ∈ l) :
    f ∈ (merge_pass g l).2 := by
  induction l generalizing g with
  | nil => cases hmem
  | cons x xs ih =>
    rcases List.mem_cons.mp hmem with heq | htail
    · subst heq
      simp only [merge_pass, merge_test_widget_right g hf, Bool.false_eq_true, if_false]
      exact List.mem_cons_self _ _
    · simp only [merge_pass]
      split
      · exact ih _ htail
      · exact List.mem_cons_of_mem _ (ih g htail)

theorem merge_pass_length (f : Field) (l : List Field) :
    (merge_pass f l).2.length ≤ l.length := by
  induction l generalizing f with
  | nil => simp [merge_pass]
  | cons g gs ih =>
    simp only [merge_pass]
    split
    · exact Nat.le_succ_of_le (ih _)
    · simpa using ih f

theorem mem_consolidate_sorted {f : Field}
    (hf : f.detection_method = "interactive_widget") :
    ∀ (n : Nat) (l : List Field), l.length ≤ n → f ∈ l → f ∈ consolidate_sorted l := by
  intro n
  induction n with
  | zero =>
    intro l hlen hmem
    rw [Nat.le_zero, List.length_eq_zero] at hlen
    subst hlen
    cases hmem
  | succ n ih =>
    intro l hlen hmem
    match l, hmem with
    | g :: rest, hmem =>
      rw [consolidate_sorted]
      rcases List.mem_cons.mp hmem with heq | htail
      · subst heq
        rw [merge_pass_widget_head rest hf]
        exact List.mem_cons_self _ _
      · refine List.mem_cons_of_mem _ (ih (merge_pass g rest).2 ?_ ?_)
        · exact le_trans (merge_pass_length g rest)
            (Nat.le_of_succ_le_succ (by simpa using hlen))
        · exact merge_pass_widget_mem g hf htail

end AdvancedFieldDetector

/-- C1.  Native-widget priority: every candidate record whose
detection_method is "interactive_widget" appears, unchanged, in the output
of _consolidate_fields, whatever the other candidates are; the merge guard
rejects any pair in which either side is a native widget, so such a record
is never merged into and never absorbed. -/
theorem native_widget_priority (fields : List AdvancedFieldDetector.Field)
    (f : AdvancedFieldDetector.Field) (hmem : f ∈ fields)
    (hdm : f.detection_method = "interactive_widget") :
    f ∈ AdvancedFieldDetector.consolidate_fields fields := by
  unfold AdvancedFieldDetector.consolidate_fields
  exact AdvancedFieldDetector.mem_consolidate_sorted hdm _ _ le_rfl
    (List.mem_mergeSort.mpr hmem)

/-- Witness for C1: two native checkbox widgets on the same page, 3 units
apart in center distance, both survive consolidation unchanged. -/
theorem native_widget_priority_witness :
    widget_checkbox_a ∈
      AdvancedFieldDetector.consolidate_fields [widget_checkbox_a, widget_checkbox_b] ∧
    widget_checkbox_b ∈
      AdvancedFieldDetector.consolidate_fields [widget_checkbox_a, widget_checkbox_b] :=
  ⟨native_widget_priority _ _ (by simp) rfl,
   native_widget_priority _ _ (by simp) rfl⟩

/-- C2.  Merge predicate: the guard _consolidate_fields applies to a pair
of candidates (same page plus _fields_should_merge) accepts exactly the
pairs with equal page, equal type, center-to-center Euclidean distance
strictly below 15 units, and neither side produced by the native-widget
detector. -/
theorem merge_predicate_iff (f g : AdvancedFieldDetector.Field) :
    AdvancedFieldDetector.merge_test f g = true ↔
      (f.page = g.page ∧ f.type = g.type ∧
       Real.sqrt (AdvancedFieldDetector.center_distance_sq f.rect g.rect) < 15 ∧
       f.detection_method ≠ "interactive_widget" ∧
       g.detection_method ≠ "interactive_widget") := by
  have hsqrt :
      Real.sqrt (AdvancedFieldDetector.center_distance_sq f.rect g.rect) < 15 ↔
      AdvancedFieldDetector.center_distance_sq f.rect g.rect < 225 := by
    rw [Real.sqrt_lt' (by norm_num : (0:ℝ) < 15)]
    constructor
    · intro h
      have : ((AdvancedFieldDetector.center_distance_sq f.rect g.rect : ℚ) : ℝ) <
          ((225 : ℚ) : ℝ) := by push_cast; linarith
      exact_mod_cast this
    · intro h
      have : ((AdvancedFieldDetector.center_distance_sq f.rect g.rect : ℚ) : ℝ) <
          ((225 : ℚ) : ℝ) := by exact_mod_cast h
      push_cast at this
      linarith
  simp only [AdvancedFieldDetector.merge_test,
    AdvancedFieldDetector.fields_should_merge, Bool.and_eq_true, beq_iff_eq,
    decide_eq_true_eq, hsqrt]
  tauto

/-- C3.  Merge action and symmetry: the merged rectangle is the
componentwise union of the two rectangles and does not depend on the
argument order; the merged confidence is the maximum of the two
confidences, also order-independent; the merged detection_method is the
tag merged_a_b built from the two methods in argument order. -/
theorem merge_action_union_symmetry (f1 f2 : AdvancedFieldDetector.Field) :
    (AdvancedFieldDetector.merge_fields f1 f2).rect =
      { x0 := min f1.rect.x0 f2.rect.x0
        y0 := min f1.rect.y0 f2.rect.y0
        x1 := max f1.rect.x1 f2.rect.x1
        y1 := max f1.rect.y1 f2.rect.y1 } ∧
    (AdvancedFieldDetector.merge_fields f1 f2).rect =
      (AdvancedFieldDetector.merge_fields f2 f1).rect ∧
    (AdvancedFieldDetector.merge_fields f1 f2).confidence =
      max f1.confidence f2.confidence ∧
    (AdvancedFieldDetector.merge_fields f1 f2).confidence =
      (AdvancedFieldDetector.merge_fields f2 f1).confidence ∧
    (AdvancedFieldDetector.merge_fields f1 f2).detection_method =
      "merged_" ++ f1.detection_method ++ "_" ++ f2.detection_method := by
  refine ⟨rfl, ?_, rfl, ?_, rfl⟩
  · simp [AdvancedFieldDetector.merge_fields, min_comm, max_comm]
  · simp [AdvancedFieldDetector.merge_fields, max_comm]

/-- C10.  Equal-confidence merge tie-break: when the two records carry the
same confidence, _merge_fields keeps the first argument as the base, so
name, type, page and the extra attributes all come from the first record
(the one earlier in the (page, y0, x0) sort order, since the outer loop of
_consolidate_fields always passes the earlier, running record first). -/
theorem merge_tie_break (f1 f2 : AdvancedFieldDetector.Field)
    (h : f1.confidence = f2.confidence) :
    (AdvancedFieldDetector.merge_fields f1 f2).name = f1.name ∧
    (AdvancedFieldDetector.merge_fields f1 f2).type = f1.type ∧
    (AdvancedFieldDetector.merge_fields f1 f2).page = f1.page ∧
    (AdvancedFieldDetector.merge_fields f1 f2).attrs = f1.attrs := by
  have hge : f1.confidence ≥ f2.confidence := ge_of_eq h
  simp [AdvancedFieldDetector.merge_fields, hge]

/-- Witness for C10: two equal-confidence records merged in either order;
the base attributes follow the first argument, so the outcome is
order-dependent. -/
theorem merge_tie_break_witness :
    (AdvancedFieldDetector.merge_fields text_field_a text_field_b).name
      = "text_field_after_name" ∧
    (AdvancedFieldDetector.merge_fields text_field_a text_field_b).attrs
      = [("label", "Name:")] ∧
    (AdvancedFieldDetector.merge_fields text_field_b text_field_a).name
      = "rect_field_1" :=
  ⟨(merge_tie_break text_field_a text_field_b rfl).1,
   (merge_tie_break text_field_a text_field_b rfl).2.2.2,
   (merge_tie_break text_field_b text_field_a rfl).1⟩

/-- Counterexample for C4: (w, h) = (20, 80) lies inside the claimed box
20 ≤ w ≤ 500, 8 ≤ h ≤ 100, yet the visual detector's gate rejects it
(aspect ratio 1/4 is below its 0.5 floor), so the claimed biconditional
fails for _is_form_field_rectangle of visual_field_detector.py; the
advanced detector's gate accepts it. -/
theorem rectangle_gate_visual_counterexample :
    VisualFieldDetector.is_form_field_rectangle 20 80 = false ∧
    (20 : ℚ) ≥ 20 ∧ (20 : ℚ) ≤ 500 ∧ (80 : ℚ) ≥ 8 ∧ (80 : ℚ) ≤ 100 ∧
    AdvancedFieldDetector.is_form_field_rectangle 20 80 = true := by
  refine ⟨?_, by norm_num, by norm_num, by norm_num, by norm_num, ?_⟩
  · norm_num [VisualFieldDetector.is_form_field_rectangle]
  · norm_num [AdvancedFieldDetector.is_form_field_rectangle,
      AdvancedFieldDetector.min_field_width, AdvancedFieldDetector.min_field_height]

/-- C4 (amended).  The advanced detector's gate returns true exactly on the
box 20 ≤ w ≤ 500, 8 ≤ h ≤ 100, with no aspect-ratio condition; the visual
detector's gate instead returns true exactly when w ≥ 20, 8 ≤ h ≤ 100 and
the aspect ratio w/h lies in [0.5, 15] — it has no 500-unit width cap and
the aspect ratio does affect its result. -/
theorem rectangle_gate_characterization :
    (∀ w h : ℚ, AdvancedFieldDetector.is_form_field_rectangle w h = true ↔
       (20 ≤ w ∧ w ≤ 500 ∧ 8 ≤ h ∧ h ≤ 100)) ∧
    (∀ w h : ℚ, VisualFieldDetector.is_form_field_rectangle w h = true ↔
       (20 ≤ w ∧ 8 ≤ h ∧ h ≤ 100 ∧ 1/2 ≤ w / h ∧ w / h ≤ 15)) := by
  constructor
  · intro w h
    simp only [AdvancedFieldDetector.is_form_field_rectangle,
      AdvancedFieldDetector.min_field_width, AdvancedFieldDetector.min_field_height,
      ge_iff_le, decide_eq_true_eq]
    tauto
  · intro w h
    simp only [VisualFieldDetector.is_form_field_rectangle]
    split_ifs with h1 h2 h3
    · constructor
      · intro hfalse
        exact absurd hfalse (by simp)
      · rintro ⟨hw, hh, -, -, -⟩
        rcases h1 with hlt | hlt <;> linarith
    · constructor
      · intro hfalse
        exact absurd hfalse (by simp)
      · rintro ⟨-, -, hh, -, -⟩
        linarith
    · push_neg at h1
      simp only [decide_eq_true_eq]
      constructor
      · rintro ⟨ha, hb⟩
        exact ⟨h1.1, h1.2, by linarith, ha, hb⟩
      · rintro ⟨-, -, -, ha, hb⟩
        exact ⟨ha, hb⟩
    · push_neg at h1
      exact absurd h3 (by linarith)

/-- C5.  Checkbox classification: any (w, h) with both sides in [5, 25]
and aspect ratio in [0.7, 1.3] is classified Checkbox by both
size-classifiers; any other shape passing the corresponding field-shape
gate is classified Text Field (the wide-rectangle branch and the fallback
branch of either classifier produce the same string). -/
theorem checkbox_classification :
    (∀ w h : ℚ, 5 ≤ w → w ≤ 25 → 5 ≤ h → h ≤ 25 →
       7/10 ≤ w / h → w / h ≤ 13/10 →
       AdvancedFieldDetector.classify_rectangle_by_size w h = "Checkbox" ∧
       VisualFieldDetector.classify_rectangle_field w h = "Checkbox") ∧
    (∀ w h : ℚ, AdvancedFieldDetector.is_form_field_rectangle w h = true →
       ¬ (5 ≤ w ∧ w ≤ 25 ∧ 5 ≤ h ∧ h ≤ 25 ∧ 7/10 ≤ w / h ∧ w / h ≤ 13/10) →
       AdvancedFieldDetector.classify_rectangle_by_size w h = "Text Field") ∧
    (∀ w h : ℚ, VisualFieldDetector.is_form_field_rectangle w h = true →
       ¬ (5 ≤ w ∧ w ≤ 25 ∧ 5 ≤ h ∧ h ≤ 25 ∧ 7/10 ≤ w / h ∧ w / h ≤ 13/10) →
       VisualFieldDetector.classify_rectangle_field w h = "Text Field") := by
  refine ⟨?_, ?_, ?_⟩
  · intro w h hw1 hw2 hh1 hh2 ha1 ha2
    have hpos : h > 0 := by linarith
    constructor
    · simp only [AdvancedFieldDetector.classify_rectangle_by_size,
        AdvancedFieldDetector.checkbox_size_range, if_pos hpos]
      rw [if_pos ⟨hw1, hw2, hh1, hh2, ha1, ha2⟩]
    · simp only [VisualFieldDetector.classify_rectangle_field, if_pos hpos]
      rw [if_pos ⟨hw2, hh2, ha1, ha2⟩]
  · intro w h hgate hnot
    have hbox := (rectangle_gate_characterization.1 w h).mp hgate
    have hpos : h > 0 := by linarith [hbox.2.2.1]
    simp only [AdvancedFieldDetector.classify_rectangle_by_size,
      AdvancedFieldDetector.checkbox_size_range, if_pos hpos]
    rw [if_neg hnot]
    split_ifs <;> rfl
  · intro w h hgate hnot
    have hbox := (rectangle_gate_characterization.2 w h).mp hgate
    have hpos : h > 0 := by linarith [hbox.2.1]
    have hnot' : ¬ (w ≤ 25 ∧ h ≤ 25 ∧ 7/10 ≤ w / h ∧ w / h ≤ 13/10) := by
      rintro ⟨c1, c2, c3, c4⟩
      exact hnot ⟨by linarith [hbox.1], c1, by linarith [hbox.2.1], c2, c3, c4⟩
    simp only [VisualFieldDetector.classify_rectangle_field, if_pos hpos]
    rw [if_neg hnot']
    split_ifs <;> rfl

/-- Witness for C5: a 15 by 15 square is classified Checkbox by both
classifiers; a 100 by 10 rectangle passes both gates and is classified
Text Field by both. -/
theorem checkbox_classification_witness :
    AdvancedFieldDetector.classify_rectangle_by_size 15 15 = "Checkbox" ∧
    VisualFieldDetector.classify_rectangle_field 15 15 = "Checkbox" ∧
    AdvancedFieldDetector.classify_rectangle_by_size 100 10 = "Text Field" ∧
    VisualFieldDetector.classify_rectangle_field 100 10 = "Text Field" := by
  have h1 := checkbox_classification.1 15 15 (by norm_num) (by norm_num)
    (by norm_num) (by norm_num) (by norm_num) (by norm_num)
  have h2 := checkbox_classification.2.1 100 10
    (by norm_num [AdvancedFieldDetector.is_form_field_rectangle,
       AdvancedFieldDetector.min_field_width, AdvancedFieldDetector.min_field_height])
    (by intro hc; norm_num at hc)
  have h3 := checkbox_classification.2.2 100 10
    (by norm_num [VisualFieldDetector.is_form_field_rectangle])
    (by intro hc; norm_num at hc)
  exact ⟨h1.1, h1.2, h2, h3⟩

/-- Counterexample for C6: on a failing parse both entry points return an
envelope without a message key, so the result does not always contain
success, fields and message as claimed. -/
theorem envelope_message_missing_on_failure :
    (PDFFormAnalyzer.analyze_pdf (.err "EOF marker not found")).message = none ∧
    (PDFFormAnalyzer.analyze_pdf (.err "EOF marker not found")).success = false ∧
    (AdvancedFieldDetector.detect_form_fields (.err "cannot open broken document")).message
      = none ∧
    (AdvancedFieldDetector.detect_form_fields
      (.err "cannot open broken document")).success = false :=
  ⟨rfl, rfl, rfl, rfl⟩

/-- C6 (amended).  Analyze never raises (both entry points are total over
the parse outcome); every result contains success and fields; message is
present exactly on success and error exactly on failure; bytes that fail
to parse yield success = false with fields = [] and an error string, which
for the advanced detector carries the nonempty prefix
"Advanced detection error: ". -/
theorem envelope_structure :
    (∀ o : PDFFormAnalyzer.PdfParseOutcome,
       ((PDFFormAnalyzer.analyze_pdf o).error.isSome ↔
         (PDFFormAnalyzer.analyze_pdf o).success = false) ∧
       ((PDFFormAnalyzer.analyze_pdf o).message.isSome ↔
         (PDFFormAnalyzer.analyze_pdf o).success = true)) ∧
    (∀ msg, PDFFormAnalyzer.analyze_pdf (.err msg) =
       { success := false, fields := [], error := some msg }) ∧
    (∀ o : AdvancedFieldDetector.FitzOutcome,
       ((AdvancedFieldDetector.detect_form_fields o).error.isSome ↔
         (AdvancedFieldDetector.detect_form_fields o).success = false) ∧
       ((AdvancedFieldDetector.detect_form_fields o).message.isSome ↔
         (AdvancedFieldDetector.detect_form_fields o).success = true)) ∧
    (∀ msg, AdvancedFieldDetector.detect_form_fields (.err msg) =
       { success := false, fields := [], field_count := some 0,
         error := some ("Advanced detection error: " ++ msg) } ∧
       ("Advanced detection error: " ++ msg) ≠ "") := by
  refine ⟨?_, fun msg => rfl, ?_, fun msg => ⟨rfl, ?_⟩⟩
  · rintro (⟨af, pages⟩ | msg)
    · cases af <;> simp [PDFFormAnalyzer.analyze_pdf]
    · simp [PDFFormAnalyzer.analyze_pdf]
  · rintro (pageCandidates | msg) <;>
      simp [AdvancedFieldDetector.detect_form_fields]
  · intro hcontra
    have hlen := congrArg String.length hcontra
    rw [String.length_append] at hlen
    have : ("Advanced detection error: ").length = 26 := rfl
    have : ("" : String).length = 0 := rfl
    omega

/-- Counterexample for C7: analyze_pdf returns envelopes without any
field_count key, on the no-AcroForm success path as well as on failure,
so not every result dictionary carries field_count. -/
theorem analyze_pdf_field_count_missing :
    (PDFFormAnalyzer.analyze_pdf (.ok { acroForm := none, pages := [] })).field_count
      = none ∧
    (PDFFormAnalyzer.analyze_pdf (.err "not a pdf")).field_count = none :=
  ⟨rfl, rfl⟩

/-- C7 (amended).  The advanced detector's envelope always carries
field_count equal to the length of the returned fields list, on success
and failure alike; pdf_analyzer's analyze_pdf never emits a field_count
key (its callers compute len(fields) themselves). -/
theorem field_count_behaviour :
    (∀ o : AdvancedFieldDetector.FitzOutcome,
       (AdvancedFieldDetector.detect_form_fields o).field_count =
         some (AdvancedFieldDetector.detect_form_fields o).fields.length) ∧
    (∀ o : PDFFormAnalyzer.PdfParseOutcome,
       (PDFFormAnalyzer.analyze_pdf o).field_count = none) := by
  constructor
  · rintro (pageCandidates | msg) <;>
      simp [AdvancedFieldDetector.detect_form_fields]
  · rintro (⟨af, pages⟩ | msg)
    · cases af <;> simp [PDFFormAnalyzer.analyze_pdf]
    · simp [PDFFormAnalyzer.analyze_pdf]

/-- C8.  Button flag-bit precedence in _parse_field: for a /Btn field with
an integer /Ff value the type is Radio Button when the bit of mask 32768
is set, otherwise Push Button when the bit of mask 65536 is set, otherwise
Checkbox; and for any field with an integer /Ff value the required flag is
exactly the bit of mask 2. -/
theorem button_flag_precedence :
    (∀ (obj : PDFFormAnalyzer.PdfObj) (parent : Option String) (flags : Int),
       obj.FT = some "/Btn" → obj.Ff = some (.int flags) →
       (PDFFormAnalyzer.parse_field obj parent).type =
         (if Int.land flags 32768 ≠ 0 then "Radio Button"
          else if Int.land flags 65536 ≠ 0 then "Push Button"
          else "Checkbox")) ∧
    (∀ (obj : PDFFormAnalyzer.PdfObj) (parent : Option String) (flags : Int),
       obj.Ff = some (.int flags) →
       ((PDFFormAnalyzer.parse_field obj parent).required = true ↔
         Int.land flags 2 ≠ 0)) := by
  constructor
  · intro obj parent flags hft hff
    simp [PDFFormAnalyzer.parse_field, hft, hff]
  · intro obj parent flags hff
    simp [PDFFormAnalyzer.parse_field, hff]

/-- Witness for C8: a /Btn object with /Ff = 32770 (radio bit and required
bit set) parses as a required Radio Button. -/
theorem button_flag_precedence_witness :
    (PDFFormAnalyzer.parse_field sample_radio_obj none).type = "Radio Button" ∧
    (PDFFormAnalyzer.parse_field sample_radio_obj none).required = true := by
  constructor
  · rw [button_flag_precedence.1 sample_radio_obj none 32770 rfl rfl]
    decide
  · exact (button_flag_precedence.2 sample_radio_obj none 32770 rfl).mpr (by decide)

/-- C9.  When the root dictionary has no /AcroForm entry, analyze_pdf
returns the early success envelope with an empty fields list and the fixed
message, whatever annotations the pages carry: the per-page widget scan of
_extract_fields_alternative_method is never consulted, so none of the
records it would produce appears in the output. -/
theorem no_acroform_early_return (doc : PDFFormAnalyzer.PdfDoc)
    (h : doc.acroForm = none) :
    PDFFormAnalyzer.analyze_pdf (.ok doc) =
      { success := true, fields := [],
        message := some "No form fields found in this PDF" } ∧
    ∀ fi ∈ PDFFormAnalyzer.extract_fields_alternative_method doc.pages,
      fi ∉ (PDFFormAnalyzer.analyze_pdf (.ok doc)).fields := by
  obtain ⟨af, pages⟩ := doc
  cases af with
  | none =>
    refine ⟨rfl, ?_⟩
    intro fi hfi
    simp [PDFFormAnalyzer.analyze_pdf]
  | some a => cases h

/-- Witness for C9: a document without /AcroForm whose single page carries
a named widget annotation; the alternative scan would report one record,
yet analyze_pdf returns the empty early envelope. -/
theorem no_acroform_early_return_witness :
    PDFFormAnalyzer.analyze_pdf (.ok sample_no_acroform_doc) =
      { success := true, fields := [],
        message := some "No form fields found in this PDF" } ∧
    (PDFFormAnalyzer.extract_fields_alternative_method
        sample_no_acroform_doc.pages).length = 1 :=
  ⟨(no_acroform_early_return sample_no_acroform_doc rfl).1, rfl⟩

end PdfFormCounter
